import Mathlib

/-!
Verification of the Clinical Metrics Aggregation & Reporting Engine
(`src/hooks/useReports.ts`, `src/utils/pdfExport.ts`, the `ComparisonData`
interface and the discharge forms) against its specification.

Shallow embedding conventions:
* timestamps are epoch milliseconds, modelled as `Int`
  (the result of `new Date(x).getTime()`);
* JavaScript numbers produced by the arithmetic of the reducer are exact
  here: counts are `Nat`, rates and durations are `ℚ`;
* the local calendar-date formatting `format(d, 'yyyy-MM-dd')` is an
  abstract parameter `fmt : Int → String`; two timestamps fall on the same
  local calendar day exactly when `fmt` maps them to the same string;
* a supabase response is a pair of an optional data list and an optional
  error (`response.data`, `response.error`).
-/

/-- An admission record from the `patients` table (row snapshot as used by
the reports hook): identity, medical record number, status, diagnosis and
admission timestamp. -/
structure Patient where
  id : String
  mrn : String
  status : String
  diagnosis : String
  admission_date : Int
  deriving Repr, DecidableEq

/-- A discharge record from the `discharges` table as used by the reports
hook: patient identity, discharge timestamp and discharge condition. -/
structure Discharge where
  patient_id : String
  discharge_date : Int
  discharge_condition : String
  deriving Repr, DecidableEq

/-- A medication record: only its creation timestamp is used by the hook. -/
structure MedRecord where
  created_at : Int
  deriving Repr, DecidableEq

/-- A lab-result record: only its creation timestamp is used by the hook. -/
structure LabRecord where
  created_at : Int
  deriving Repr, DecidableEq

/-- A vitals record: only its presence (count) is used by the hook. -/
structure VitalRecord where
  created_at : Int
  deriving Repr, DecidableEq

/-! ### Counting by key

`acc[k] = (acc[k] || 0) + 1` on a plain JavaScript object, whose
`Object.entries`/`Object.values` order for string keys is insertion order:
an association list where a fresh key is appended and an existing key is
incremented in place. -/

/-- One step of the `reduce` accumulator: increment the entry of key `k`,
appending `(k, 1)` when `k` is absent. -/
def bump : List (String × Nat) → String → List (String × Nat)
  | [], k => [(k, 1)]
  | (k', v) :: rest, k =>
      if k' = k then (k', v + 1) :: rest else (k', v) :: bump rest k

/-- `Object.entries` of the count object built by folding `bump` over the
records, keyed by `key`. -/
def countBy (key : α → String) (xs : List α) : List (String × Nat) :=
  xs.foldl (fun acc x => bump acc (key x)) []

/-- `obj[k] || 0`: the count stored under `k`, or `0` when absent. -/
def lookupD : List (String × Nat) → String → Nat
  | [], _ => 0
  | (k', v) :: rest, k => if k' = k then v else lookupD rest k

/-! ### The Metrics Reducer (`useReports.ts`, `fetchReportData`) -/

/-- `statusDistribution`: patients grouped by `status`, counts in
first-seen key order. -/
def statusDistribution (ps : List Patient) : List (String × Nat) :=
  countBy (·.status) ps

/-- `diagnosesCount`: patients grouped by `diagnosis` (exact,
case-sensitive string match). -/
def diagnosesCount (ps : List Patient) : List (String × Nat) :=
  countBy (·.diagnosis) ps

/-- `patientAdmissions`: admission counts per `mrn`. -/
def patientAdmissions (ps : List Patient) : List (String × Nat) :=
  countBy (·.mrn) ps

/-- `totalPatients = patients.length`. -/
def totalPatients (ps : List Patient) : Nat := ps.length

/-- `criticalCases = statusDistribution['Critical'] || 0`. -/
def criticalCases (ps : List Patient) : Nat :=
  lookupD (statusDistribution ps) "Critical"

/-- `totalBeds = 50`, the fixed ICU capacity constant. -/
def totalBeds : Nat := 50

/-- `occupiedBeds = patients.filter(p => p.status !== 'Discharged').length`. -/
def occupiedBeds (ps : List Patient) : Nat :=
  (ps.filter (fun p => p.status ≠ "Discharged")).length

/-- `bedOccupancyRate = occupiedBeds / totalBeds`. -/
def bedOccupancyRate (ps : List Patient) : ℚ :=
  (occupiedBeds ps : ℚ) / (totalBeds : ℚ)

/-- The deceased sentinel the mortality computation compares against
(`d.discharge_condition === 'Deceased'`). -/
def deceasedSentinel : String := "Deceased"

/-- `deceasedDischarges`: discharges whose condition equals the sentinel. -/
def deceasedDischarges (ds : List Discharge) : Nat :=
  (ds.filter (fun d => d.discharge_condition = deceasedSentinel)).length

/-- `n || 1` on a JavaScript number that is a count: `0` is falsy. -/
def jsOrOne (n : Nat) : Nat := if n = 0 then 1 else n

/-- `mortalityRate = deceasedDischarges / (discharges.length || 1)`. -/
def mortalityRate (ds : List Discharge) : ℚ :=
  (deceasedDischarges ds : ℚ) / (jsOrOne ds.length : ℚ)

/-- `readmissions = Object.values(patientAdmissions).filter(c => c > 1).length`. -/
def readmissions (ps : List Patient) : Nat :=
  ((patientAdmissions ps).filter (fun e => 1 < e.2)).length

/-- `readmissionRate = readmissions / (patients.length || 1)`. -/
def readmissionRate (ps : List Patient) : ℚ :=
  (readmissions ps : ℚ) / (jsOrOne ps.length : ℚ)

/-- Milliseconds per day: `1000 * 60 * 60 * 24`. -/
def msPerDay : ℚ := 1000 * 60 * 60 * 24

/-- The body of `discharges.map(...)`: find the first patient whose `id`
equals the discharge's `patient_id`; an unmatched discharge contributes
`0`, a matched one the timestamp difference in fractional days. -/
def stayContribution (ps : List Patient) (d : Discharge) : ℚ :=
  match ps.find? (fun p => p.id = d.patient_id) with
  | none => 0
  | some p => ((d.discharge_date : ℚ) - (p.admission_date : ℚ)) / msPerDay

/-- `stayDurations`: one contribution per discharge record. -/
def stayDurations (ps : List Patient) (ds : List Discharge) : List ℚ :=
  ds.map (stayContribution ps)

/-- `averageStayDuration = stayDurations.length ? sum / length : 0`. -/
def averageStayDuration (ps : List Patient) (ds : List Discharge) : ℚ :=
  if (stayDurations ps ds).length = 0 then 0
  else (stayDurations ps ds).sum / ((stayDurations ps ds).length : ℚ)

/-- The `ReportMetrics` record (`useReports.ts`). -/
structure ReportMetrics where
  totalPatients : Nat
  criticalCases : Nat
  medicationsGiven : Nat
  labTests : Nat
  averageStayDuration : ℚ
  bedOccupancyRate : ℚ
  readmissionRate : ℚ
  mortalityRate : ℚ
  deriving Repr, DecidableEq

/-- The object passed to `setMetrics`. -/
def computeMetrics (ps : List Patient) (ms : List MedRecord)
    (ls : List LabRecord) (ds : List Discharge) : ReportMetrics where
  totalPatients := totalPatients ps
  criticalCases := criticalCases ps
  medicationsGiven := ms.length
  labTests := ls.length
  averageStayDuration := averageStayDuration ps ds
  bedOccupancyRate := bedOccupancyRate ps
  readmissionRate := readmissionRate ps
  mortalityRate := mortalityRate ds

/-! ### The Activity Aggregator (`useReports.ts`, `fetchReportData`) -/

/-- A `{ name, value }` pair. -/
structure NameValue where
  name : String
  value : Nat
  deriving Repr, DecidableEq

/-- A `{ name, count }` pair. -/
structure NameCount where
  name : String
  count : Nat
  deriving Repr, DecidableEq

/-- `Object.entries(statusDistribution).map(([name, value]) => ...)`. -/
def patientStatusDistribution (ps : List Patient) : List NameValue :=
  (statusDistribution ps).map (fun e => ⟨e.1, e.2⟩)

/-- `admissionsToday`: patients whose admission date formats to the same
local calendar day as `today`. -/
def admissionsToday (fmt : Int → String) (today : Int)
    (ps : List Patient) : Nat :=
  (ps.filter (fun p => fmt p.admission_date = fmt today)).length

/-- `dischargesToday`. -/
def dischargesToday (fmt : Int → String) (today : Int)
    (ds : List Discharge) : Nat :=
  (ds.filter (fun d => fmt d.discharge_date = fmt today)).length

/-- `labTestsToday`. -/
def labTestsToday (fmt : Int → String) (today : Int)
    (ls : List LabRecord) : Nat :=
  (ls.filter (fun l => fmt l.created_at = fmt today)).length

/-- `medicationsToday`. -/
def medicationsToday (fmt : Int → String) (today : Int)
    (ms : List MedRecord) : Nat :=
  (ms.filter (fun m => fmt m.created_at = fmt today)).length

/-- The `dailyActivities` array passed to `setActivities`: four fixed
labels in fixed order with the same-day counts. -/
def dailyActivities (fmt : Int → String) (today : Int) (ps : List Patient)
    (ds : List Discharge) (ls : List LabRecord) (ms : List MedRecord) :
    List NameValue :=
  [⟨"Admissions", admissionsToday fmt today ps⟩,
   ⟨"Discharges", dischargesToday fmt today ds⟩,
   ⟨"Lab Tests", labTestsToday fmt today ls⟩,
   ⟨"Medications", medicationsToday fmt today ms⟩]

/-- The comparator of `sortedDiagnoses`: `([, a], [, b]) => b - a` sorts
the count entries so that larger counts come first. -/
def countDescRel (a b : String × Nat) : Prop := b.2 ≤ a.2

instance : DecidableRel countDescRel := fun a b =>
  inferInstanceAs (Decidable (b.2 ≤ a.2))

instance : IsTotal (String × Nat) countDescRel :=
  ⟨fun a b => le_total b.2 a.2⟩

instance : IsTrans (String × Nat) countDescRel :=
  ⟨fun _ _ _ hab hbc => le_trans hbc hab⟩

/-- `sortedDiagnoses = Object.entries(diagnosesCount).sort(([, a], [, b]) =>
b - a).slice(0, 5).map(([name, count]) => ...)` — a stable descending sort
by count, then the first five entries. -/
def sortedDiagnoses (ps : List Patient) : List NameCount :=
  ((List.insertionSort countDescRel (diagnosesCount ps)).take 5).map
    (fun e => ⟨e.1, e.2⟩)

/-- The `topProcedures` array: five fixed labels with substituted counts. -/
def topProcedures (ps : List Patient) (ms : List MedRecord)
    (ls : List LabRecord) (ds : List Discharge) (vs : List VitalRecord) :
    List NameCount :=
  [⟨"Vital Signs", vs.length⟩,
   ⟨"Lab Tests", ls.length⟩,
   ⟨"Medication Administration", ms.length⟩,
   ⟨"Patient Assessment", ps.length⟩,
   ⟨"Discharge Planning", ds.length⟩]

/-- The `ReportActivities` record (`useReports.ts`). -/
structure ReportActivities where
  patientStatusDistribution : List NameValue
  dailyActivities : List NameValue
  topProcedures : List NameCount
  commonDiagnoses : List NameCount
  deriving Repr, DecidableEq

/-- The object passed to `setActivities`. -/
def computeActivities (fmt : Int → String) (today : Int) (ps : List Patient)
    (ms : List MedRecord) (ls : List LabRecord) (ds : List Discharge)
    (vs : List VitalRecord) : ReportActivities where
  patientStatusDistribution := patientStatusDistribution ps
  dailyActivities := dailyActivities fmt today ps ds ls ms
  topProcedures := topProcedures ps ms ls ds vs
  commonDiagnoses := sortedDiagnoses ps

/-! ### The hook's state machine (`useReports`)

`fetchReportData` runs `try { setLoading(true); setError(null); ... }
catch { setError(err) } finally { setLoading(false) }`.  `Promise.all`
joins the five supabase responses; the first response carrying an error
(checked in the fixed order patients, medications, lab results,
discharges, vitals) is thrown before any metric is computed, so the catch
block leaves the previously displayed metrics and activities untouched. -/

/-- A supabase response: `data` (possibly null) and `error` (null on
success).  Errors are modelled as opaque strings. -/
structure FetchResponse (α : Type) where
  data : Option (List α)
  error : Option String
  deriving Repr

/-- The React state the hook owns: `metrics`, `activities`, `loading`,
`error`. -/
structure ReportState where
  metrics : ReportMetrics
  activities : ReportActivities
  loading : Bool
  error : Option String
  deriving Repr

/-- The first error among the five responses, in the order the `throw`
checks are written. -/
def firstError (pr : FetchResponse Patient) (mr : FetchResponse MedRecord)
    (lr : FetchResponse LabRecord) (dr : FetchResponse Discharge)
    (vr : FetchResponse VitalRecord) : Option String :=
  pr.error <|> mr.error <|> lr.error <|> dr.error <|> vr.error

/-- One run of `fetchReportData` over joined responses: on the first
response error the catch/finally path stores the error and clears
`loading`, leaving metrics and activities as they were; otherwise the
five `data` arrays (defaulted to `[]`) are reduced and both state slices
are replaced. -/
def fetchReportData (fmt : Int → String) (today : Int)
    (pr : FetchResponse Patient) (mr : FetchResponse MedRecord)
    (lr : FetchResponse LabRecord) (dr : FetchResponse Discharge)
    (vr : FetchResponse VitalRecord) (prior : ReportState) : ReportState :=
  match firstError pr mr lr dr vr with
  | some e => { prior with loading := false, error := some e }
  | none =>
      let patients := pr.data.getD []
      let medications := mr.data.getD []
      let labResults := lr.data.getD []
      let discharges := dr.data.getD []
      let vitals := vr.data.getD []
      { metrics := computeMetrics patients medications labResults discharges
        activities :=
          computeActivities fmt today patients medications labResults
            discharges vitals
        loading := false
        error := none }

/-! ### The Comparison Engine

The repository declares the result shape (`ComparisonData` in the shared
types module); the function that fills it is not among the sources, only
its interface and the spec's description of it. -/

/-- The `changes` object of `ComparisonData`: exactly six delta fields,
none for `medicationsGiven` or `labTests`. -/
structure ComparisonChanges where
  totalPatients : Int
  criticalCases : Int
  averageStayDuration : ℚ
  bedOccupancyRate : ℚ
  readmissionRate : ℚ
  mortalityRate : ℚ
  deriving Repr, DecidableEq

/-- The `ComparisonData` interface: the previous period's metrics plus the
six signed deltas. -/
structure ComparisonData where
  previousPeriod : ReportMetrics
  changes : ComparisonChanges
  deriving Repr, DecidableEq

/-- Modelled from the spec: the Comparison Engine's computation is absent
from the sources (only the `ComparisonData` interface is); per §4.4 it
maps `(currentMetrics, previousMetrics)` to the six deltas
`currentPeriod.field − previousPeriod.field` by simple subtraction,
with no delta for `medicationsGiven`/`labTests`, and never fails. -/
def computeComparison (current previous : ReportMetrics) : ComparisonData where
  previousPeriod := previous
  changes :=
    { totalPatients :=
        (current.totalPatients : Int) - (previous.totalPatients : Int)
      criticalCases :=
        (current.criticalCases : Int) - (previous.criticalCases : Int)
      averageStayDuration :=
        current.averageStayDuration - previous.averageStayDuration
      bedOccupancyRate := current.bedOccupancyRate - previous.bedOccupancyRate
      readmissionRate := current.readmissionRate - previous.readmissionRate
      mortalityRate := current.mortalityRate - previous.mortalityRate }

/-! ### The Document Renderer (`pdfExport.ts`, `generatePDF`)

Only the Key Metrics table body is needed by the claims.  `toFixed(1)`
follows the ECMAScript rule: with `f = 1`, pick the integer `n` whose
`n / 10` is closest to the magnitude of the value, ties resolved to the
larger `n`, and prefix the sign. -/

/-- `x.toFixed(1)` for a non-negative exact value: round `x * 10` half-up
to an integer `n` and print `n / 10 "." n % 10`. -/
def fixed1Core (q : ℚ) : String :=
  let n : Nat := (⌊q * 10 + 1 / 2⌋).toNat
  toString (n / 10) ++ "." ++ toString (n % 10)

/-- `x.toFixed(1)` on an exact value: sign prefix plus the magnitude's
one-decimal form. -/
def ratToFixed1 (q : ℚ) : String :=
  if q < 0 then "-" ++ fixed1Core (-q) else fixed1Core q

/-- The `metricsData` table body of `generatePDF`: eight
`[label, value]` rows. -/
def metricsData (m : ReportMetrics) : List (List String) :=
  [["Total Patients", toString m.totalPatients],
   ["Critical Cases", toString m.criticalCases],
   ["Medications Given", toString m.medicationsGiven],
   ["Lab Tests", toString m.labTests],
   ["Average Stay Duration", ratToFixed1 m.averageStayDuration ++ " days"],
   ["Bed Occupancy Rate", ratToFixed1 (m.bedOccupancyRate * 100) ++ "%"],
   ["Readmission Rate", ratToFixed1 (m.readmissionRate * 100) ++ "%"],
   ["Mortality Rate", ratToFixed1 (m.mortalityRate * 100) ++ "%"]]

/-! ### The discharge forms' condition domains

Two variants of `DischargeForm` exist in the repository.  One offers the
conditions Improved / Stable / Deteriorated / Deceased and writes the
selected value into `discharges.discharge_condition`; the other offers
Improved / died.  In each, the last option is the terminal (deceased)
condition. -/

/-- The condition options of the four-option `DischargeForm`. -/
def dischargeConditionOptionsA : List String :=
  ["Improved", "Stable", "Deteriorated", "Deceased"]

/-- The terminal condition of the four-option form. -/
def terminalConditionA : String := "Deceased"

/-- The condition options of the two-option `DischargeForm`. -/
def dischargeConditionOptionsB : List String :=
  ["Improved", "died"]

/-- The terminal condition of the two-option form (`'died'`, compared
against in that form's own notification logic). -/
def terminalConditionB : String := "died"

/-! ### Lemmas about counting by key -/

theorem bump_map_fst (acc : List (String × Nat)) (k : String) :
    (bump acc k).map Prod.fst =
      if k ∈ acc.map Prod.fst then acc.map Prod.fst
      else acc.map Prod.fst ++ [k] := by
  induction acc with
  | nil => simp [bump]
  | cons e rest ih =>
      obtain ⟨k', v⟩ := e
      by_cases h : k' = k
      · subst h
        simp [bump]
      · simp only [bump, if_neg h, List.map_cons, ih, List.mem_cons]
        by_cases hm : k ∈ rest.map Prod.fst
        · simp [hm]
        · simp [hm, Ne.symm h]

theorem mem_bump_map_fst (acc : List (String × Nat)) (k k' : String) :
    k' ∈ (bump acc k).map Prod.fst ↔
      k' ∈ acc.map Prod.fst ∨ k' = k := by
  rw [bump_map_fst]
  by_cases hm : k ∈ acc.map Prod.fst
  · simp only [if_pos hm]
    constructor
    · exact Or.inl
    · rintro (h | rfl)
      · exact h
      · exact hm
  · simp [if_neg hm]

theorem bump_map_fst_nodup (acc : List (String × Nat)) (k : String)
    (h : (acc.map Prod.fst).Nodup) :
    ((bump acc k).map Prod.fst).Nodup := by
  rw [bump_map_fst]
  by_cases hm : k ∈ acc.map Prod.fst
  · simpa [hm] using h
  · simp [hm, List.nodup_append, h]

theorem bump_sum_snd (acc : List (String × Nat)) (k : String) :
    ((bump acc k).map Prod.snd).sum = ((acc.map Prod.snd).sum) + 1 := by
  induction acc with
  | nil => simp [bump]
  | cons e rest ih =>
      obtain ⟨k', v⟩ := e
      by_cases h : k' = k
      · subst h
        simp [bump]
        omega
      · simp [bump, if_neg h, ih]
        omega

theorem lookupD_bump_self (acc : List (String × Nat)) (k : String) :
    lookupD (bump acc k) k = lookupD acc k + 1 := by
  induction acc with
  | nil => simp [bump, lookupD]
  | cons e rest ih =>
      obtain ⟨k', v⟩ := e
      by_cases h : k' = k
      · subst h
        simp [bump, lookupD]
      · simp [bump, lookupD, if_neg h, ih]

theorem lookupD_bump_ne (acc : List (String × Nat)) (k k' : String)
    (h : k' ≠ k) : lookupD (bump acc k) k' = lookupD acc k' := by
  induction acc with
  | nil => simp [bump, lookupD, if_neg (Ne.symm h)]
  | cons e rest ih =>
      obtain ⟨k'', v⟩ := e
      by_cases h2 : k'' = k
      · subst h2
        simp [bump, lookupD, if_neg (Ne.symm h)]
      · by_cases h3 : k'' = k'
        · subst h3
          simp [bump, lookupD, if_neg h2]
        · simp [bump, lookupD, if_neg h2, if_neg h3, ih]

theorem foldl_bump_fst_nodup {α : Type} (key : α → String) (xs : List α)
    (acc : List (String × Nat)) (h : (acc.map Prod.fst).Nodup) :
    ((xs.foldl (fun a x => bump a (key x)) acc).map Prod.fst).Nodup := by
  induction xs generalizing acc with
  | nil => simpa using h
  | cons x xs ih =>
      simp only [List.foldl_cons]
      exact ih _ (bump_map_fst_nodup acc (key x) h)

theorem foldl_bump_sum {α : Type} (key : α → String) (xs : List α)
    (acc : List (String × Nat)) :
    ((xs.foldl (fun a x => bump a (key x)) acc).map Prod.snd).sum =
      (acc.map Prod.snd).sum + xs.length := by
  induction xs generalizing acc with
  | nil => simp
  | cons x xs ih =>
      simp only [List.foldl_cons, ih, bump_sum_snd, List.length_cons]
      omega

theorem foldl_bump_mem_fst {α : Type} (key : α → String) (xs : List α)
    (acc : List (String × Nat)) (k : String) :
    k ∈ (xs.foldl (fun a x => bump a (key x)) acc).map Prod.fst ↔
      k ∈ acc.map Prod.fst ∨ k ∈ xs.map key := by
  induction xs generalizing acc with
  | nil => simp
  | cons x xs ih =>
      simp only [List.foldl_cons, ih, mem_bump_map_fst, List.map_cons,
        List.mem_cons]
      tauto

theorem foldl_bump_lookupD {α : Type} (key : α → String) (xs : List α)
    (acc : List (String × Nat)) (k : String) :
    lookupD (xs.foldl (fun a x => bump a (key x)) acc) k =
      lookupD acc k + (xs.filter (fun x => key x = k)).length := by
  induction xs generalizing acc with
  | nil => simp
  | cons x xs ih =>
      simp only [List.foldl_cons, ih]
      by_cases h : key x = k
      · rw [h, lookupD_bump_self]
        simp [List.filter_cons, h]
        omega
      · rw [lookupD_bump_ne _ _ _ (fun he => h he.symm)]
        simp [List.filter_cons, h]

theorem countBy_fst_nodup {α : Type} (key : α → String) (xs : List α) :
    ((countBy key xs).map Prod.fst).Nodup :=
  foldl_bump_fst_nodup key xs [] (by simp)

theorem countBy_sum {α : Type} (key : α → String) (xs : List α) :
    ((countBy key xs).map Prod.snd).sum = xs.length := by
  simpa using foldl_bump_sum key xs []

theorem countBy_mem_fst {α : Type} (key : α → String) (xs : List α)
    (k : String) :
    k ∈ (countBy key xs).map Prod.fst ↔ k ∈ xs.map key := by
  simpa using foldl_bump_mem_fst key xs [] k

theorem countBy_lookupD {α : Type} (key : α → String) (xs : List α)
    (k : String) :
    lookupD (countBy key xs) k = (xs.filter (fun x => key x = k)).length := by
  simpa [lookupD] using foldl_bump_lookupD key xs [] k

theorem lookupD_of_mem (acc : List (String × Nat))
    (h : (acc.map Prod.fst).Nodup) (e : String × Nat) (he : e ∈ acc) :
    lookupD acc e.1 = e.2 := by
  induction acc with
  | nil => cases he
  | cons a rest ih =>
      obtain ⟨k', v⟩ := a
      rcases List.mem_cons.mp he with rfl | hmem
      · simp [lookupD]
      · have hne : k' ≠ e.1 := by
          intro hk
          subst hk
          have : e.1 ∈ rest.map Prod.fst :=
            List.mem_map.mpr ⟨e, hmem, rfl⟩
          simp at h
          exact h.1 e.2 (by simpa using hmem)
        simp only [lookupD, if_neg hne]
        exact ih (by simpa using h.of_cons) hmem

theorem lookupD_le_sum (acc : List (String × Nat)) (k : String) :
    lookupD acc k ≤ (acc.map Prod.snd).sum := by
  induction acc with
  | nil => simp [lookupD]
  | cons a rest ih =>
      obtain ⟨k', v⟩ := a
      by_cases h : k' = k
      · simp [lookupD, h]
      · simp only [lookupD, if_neg h, List.map_cons, List.sum_cons]
        omega

theorem countBy_fst_toFinset {α : Type} (key : α → String) (xs : List α) :
    ((countBy key xs).map Prod.fst).toFinset = (xs.map key).toFinset := by
  ext k
  simp only [List.mem_toFinset]
  exact countBy_mem_fst key xs k

theorem countBy_length {α : Type} (key : α → String) (xs : List α) :
    (countBy key xs).length = (xs.map key).toFinset.card := by
  have h1 : (countBy key xs).length =
      ((countBy key xs).map Prod.fst).length := by simp
  rw [h1, ← List.toFinset_card_of_nodup (countBy_fst_nodup key xs),
    countBy_fst_toFinset]

/-- `n || 1` on a count is exactly `max n 1`. -/
theorem jsOrOne_eq_max (n : Nat) : jsOrOne n = max n 1 := by
  unfold jsOrOne
  split <;> omega

/-! ### Claim theorems -/

/-- C2: for every discharges collection, `mortalityRate` equals the number
of discharges whose condition equals the deceased sentinel divided by
`max(|discharges|, 1)`; with zero discharges it equals `0` (the floor-of-1
denominator avoids division by zero), and with 2 discharges of which 1 is
deceased it equals `0.5`. -/
theorem mortalityRate_spec (ds : List Discharge) :
    mortalityRate ds =
      (deceasedDischarges ds : ℚ) / ((max ds.length 1 : Nat) : ℚ)
    ∧ (ds.length = 0 → mortalityRate ds = 0)
    ∧ (ds.length = 2 → deceasedDischarges ds = 1 →
        mortalityRate ds = 1 / 2) := by
  refine ⟨?_, ?_, ?_⟩
  · rw [mortalityRate, jsOrOne_eq_max]
  · intro h
    rcases List.length_eq_zero.mp h with rfl
    simp [mortalityRate, deceasedDischarges, jsOrOne]
  · intro h2 h1
    rw [mortalityRate, h1, h2]
    norm_num [jsOrOne]

/-- C2 witness: two concrete discharges, one deceased, give rate 1/2. -/
theorem mortalityRate_spec_witness :
    mortalityRate [⟨"p1", 0, "Deceased"⟩, ⟨"p2", 0, "Improved"⟩] = 1 / 2 :=
  (mortalityRate_spec [⟨"p1", 0, "Deceased"⟩, ⟨"p2", 0, "Improved"⟩]).2.2
    (by decide) (by decide)

/-- C7: `dailyActivities` always has exactly four entries with the fixed
labels Admissions, Discharges, Lab Tests, Medications in that order, and
each value counts the records of the corresponding collection whose
relevant timestamp formats to the same local calendar date as the
computation-time `today` — for an arbitrary `today`, independent of the
requested window. -/
theorem dailyActivities_spec (fmt : Int → String) (today : Int)
    (ps : List Patient) (ds : List Discharge) (ls : List LabRecord)
    (ms : List MedRecord) :
    (dailyActivities fmt today ps ds ls ms).length = 4
    ∧ (dailyActivities fmt today ps ds ls ms).map NameValue.name =
        ["Admissions", "Discharges", "Lab Tests", "Medications"]
    ∧ (dailyActivities fmt today ps ds ls ms).map NameValue.value =
        [(ps.filter (fun p => fmt p.admission_date = fmt today)).length,
         (ds.filter (fun d => fmt d.discharge_date = fmt today)).length,
         (ls.filter (fun l => fmt l.created_at = fmt today)).length,
         (ms.filter (fun m => fmt m.created_at = fmt today)).length] :=
  ⟨rfl, rfl, rfl⟩

/-- C8: the Comparison Engine returns the previous metrics unchanged and a
changes record that is the exact field-wise difference current minus
previous for precisely the six fields `totalPatients`, `criticalCases`,
`averageStayDuration`, `bedOccupancyRate`, `readmissionRate`,
`mortalityRate` (signed, so negative results are preserved); the
`ComparisonChanges` shape carries no delta for `medicationsGiven` or
`labTests`. -/
theorem computeComparison_spec (c p : ReportMetrics) :
    (computeComparison c p).previousPeriod = p
    ∧ (computeComparison c p).changes =
        { totalPatients := (c.totalPatients : Int) - (p.totalPatients : Int)
          criticalCases := (c.criticalCases : Int) - (p.criticalCases : Int)
          averageStayDuration :=
            c.averageStayDuration - p.averageStayDuration
          bedOccupancyRate := c.bedOccupancyRate - p.bedOccupancyRate
          readmissionRate := c.readmissionRate - p.readmissionRate
          mortalityRate := c.mortalityRate - p.mortalityRate } :=
  ⟨rfl, rfl⟩

/-- C9: the Key Metrics table body has exactly 8 rows and each row's
literal textual value is the formatted form of the corresponding
`ReportMetrics` field: the four counts as decimal integer strings, the
average stay to one decimal followed by the day unit, and the three rates
as the value times 100 to one decimal followed by a percent sign. -/
theorem metricsData_spec (m : ReportMetrics) :
    (metricsData m).length = 8
    ∧ metricsData m =
        [["Total Patients", toString m.totalPatients],
         ["Critical Cases", toString m.criticalCases],
         ["Medications Given", toString m.medicationsGiven],
         ["Lab Tests", toString m.labTests],
         ["Average Stay Duration",
           ratToFixed1 m.averageStayDuration ++ " days"],
         ["Bed Occupancy Rate",
           ratToFixed1 (m.bedOccupancyRate * 100) ++ "%"],
         ["Readmission Rate",
           ratToFixed1 (m.readmissionRate * 100) ++ "%"],
         ["Mortality Rate",
           ratToFixed1 (m.mortalityRate * 100) ++ "%"]] :=
  ⟨rfl, rfl⟩

/-- C10: the values of `patientStatusDistribution` sum exactly to
`totalPatients` (every admission is counted in exactly one status bucket:
the bucket names are pairwise distinct), and in particular
`criticalCases` never exceeds `totalPatients`. -/
theorem patientStatusDistribution_spec (ps : List Patient) :
    ((patientStatusDistribution ps).map NameValue.value).sum =
      totalPatients ps
    ∧ ((patientStatusDistribution ps).map NameValue.name).Nodup
    ∧ criticalCases ps ≤ totalPatients ps := by
  refine ⟨?_, ?_, ?_⟩
  · have h := countBy_sum (fun p : Patient => p.status) ps
    simpa [patientStatusDistribution, statusDistribution, totalPatients,
      List.map_map, Function.comp] using h
  · have h := countBy_fst_nodup (fun p : Patient => p.status) ps
    simpa [patientStatusDistribution, statusDistribution, List.map_map,
      Function.comp] using h
  · have h := lookupD_le_sum (statusDistribution ps) "Critical"
    have h2 := countBy_sum (fun p : Patient => p.status) ps
    simp only [statusDistribution] at h
    simp only [criticalCases, totalPatients, statusDistribution]
    omega

/-- C5: if any of the five joined fetches carries an error, the whole
aggregation aborts: the previously displayed metrics and activities are
left unchanged (not cleared or recomputed), the single first error is
surfaced as the hook's error state, and the loading flag is cleared. -/
theorem fetchReportData_error_spec (fmt : Int → String) (today : Int)
    (pr : FetchResponse Patient) (mr : FetchResponse MedRecord)
    (lr : FetchResponse LabRecord) (dr : FetchResponse Discharge)
    (vr : FetchResponse VitalRecord) (prior : ReportState) (e : String)
    (h : firstError pr mr lr dr vr = some e) :
    (fetchReportData fmt today pr mr lr dr vr prior).metrics =
      prior.metrics
    ∧ (fetchReportData fmt today pr mr lr dr vr prior).activities =
        prior.activities
    ∧ (fetchReportData fmt today pr mr lr dr vr prior).error = some e
    ∧ (fetchReportData fmt today pr mr lr dr vr prior).loading = false := by
  simp [fetchReportData, h]

/-- C5 witness: a failing patients fetch leaves the prior state's metrics
in place and surfaces the error. -/
theorem fetchReportData_error_spec_witness :
    (fetchReportData (fun _ => "") 0 ⟨none, some "boom"⟩ ⟨some [], none⟩
        ⟨some [], none⟩ ⟨some [], none⟩ ⟨some [], none⟩
        ⟨⟨3, 1, 0, 0, 0, 0, 0, 0⟩, ⟨[], [], [], []⟩, true, none⟩).metrics =
        ⟨3, 1, 0, 0, 0, 0, 0, 0⟩
    ∧ (fetchReportData (fun _ => "") 0 ⟨none, some "boom"⟩ ⟨some [], none⟩
        ⟨some [], none⟩ ⟨some [], none⟩ ⟨some [], none⟩
        ⟨⟨3, 1, 0, 0, 0, 0, 0, 0⟩, ⟨[], [], [], []⟩, true, none⟩).error =
        some "boom" :=
  ⟨(fetchReportData_error_spec (fun _ => "") 0 ⟨none, some "boom"⟩
      ⟨some [], none⟩ ⟨some [], none⟩ ⟨some [], none⟩ ⟨some [], none⟩
      ⟨⟨3, 1, 0, 0, 0, 0, 0, 0⟩, ⟨[], [], [], []⟩, true, none⟩ "boom"
      rfl).1,
   (fetchReportData_error_spec (fun _ => "") 0 ⟨none, some "boom"⟩
      ⟨some [], none⟩ ⟨some [], none⟩ ⟨some [], none⟩ ⟨some [], none⟩
      ⟨⟨3, 1, 0, 0, 0, 0, 0, 0⟩, ⟨[], [], [], []⟩, true, none⟩ "boom"
      rfl).2.2.1⟩

/-- C1: `averageStayDuration` is the arithmetic mean over all discharge
records of each discharge's contributed duration: a discharge matching an
admission (by `patient_id = id`) contributes the timestamp difference in
fractional days for a matching admission, an unmatched discharge
contributes exactly `0` while remaining in the denominator, and with zero
discharges the result is `0`. -/
theorem averageStayDuration_spec (ps : List Patient) (ds : List Discharge) :
    (ds = [] → averageStayDuration ps ds = 0)
    ∧ (ds ≠ [] → averageStayDuration ps ds =
        (ds.map (stayContribution ps)).sum / (ds.length : ℚ))
    ∧ ∀ d : Discharge,
        ((∀ p ∈ ps, p.id ≠ d.patient_id) → stayContribution ps d = 0)
        ∧ ((∃ p ∈ ps, p.id = d.patient_id) →
            ∃ p ∈ ps, p.id = d.patient_id ∧
              stayContribution ps d =
                ((d.discharge_date : ℚ) - (p.admission_date : ℚ)) /
                  msPerDay) := by
  refine ⟨?_, ?_, ?_⟩
  · rintro rfl
    simp [averageStayDuration, stayDurations]
  · intro h
    have hne : (stayDurations ps ds).length ≠ 0 := by
      simp [stayDurations, List.length_eq_zero, h]
    rw [averageStayDuration, if_neg hne]
    simp [stayDurations]
  · intro d
    constructor
    · intro h
      have hfind : ps.find? (fun p => p.id = d.patient_id) = none := by
        rw [List.find?_eq_none]
        intro x hx
        simpa using h x hx
      simp [stayContribution, hfind]
    · intro h
      have hsome : (ps.find? (fun p => p.id = d.patient_id)).isSome := by
        rw [List.find?_isSome]
        obtain ⟨p, hp, hid⟩ := h
        exact ⟨p, hp, by simpa using hid⟩
      obtain ⟨q, hq⟩ := Option.isSome_iff_exists.mp hsome
      refine ⟨q, List.mem_of_find?_eq_some hq, ?_, ?_⟩
      · simpa using List.find?_some hq
      · simp [stayContribution, hq]

/-- C1 witness: a discharge whose `patient_id` matches no admission
contributes exactly 0 days. -/
theorem averageStayDuration_spec_witness :
    stayContribution [⟨"a", "m", "Stable", "flu", 0⟩]
      ⟨"zz", 86400000, "Improved"⟩ = 0 :=
  ((averageStayDuration_spec [⟨"a", "m", "Stable", "flu", 0⟩]
      [⟨"zz", 86400000, "Improved"⟩]).2.2 ⟨"zz", 86400000, "Improved"⟩).1
    (by decide)

/-- C3: the mortality computation's sentinel does not match every terminal
discharge-condition value the repository's discharge forms write: the
two-option form's terminal value `'died'` differs from the sentinel
`'Deceased'`, so a discharge record it creates is not counted in the
mortality numerator (its mortality rate evaluates to 0). -/
theorem deceasedSentinel_mismatch :
    terminalConditionB ∈ dischargeConditionOptionsB
    ∧ terminalConditionB ≠ deceasedSentinel
    ∧ terminalConditionA = deceasedSentinel
    ∧ deceasedDischarges [⟨"p1", 0, terminalConditionB⟩] = 0
    ∧ mortalityRate [⟨"p1", 0, terminalConditionB⟩] = 0 := by
  refine ⟨by decide, by decide, by decide, by decide, ?_⟩
  have h : deceasedDischarges [⟨"p1", 0, terminalConditionB⟩] = 0 := by
    decide
  rw [mortalityRate, h]
  norm_num

/-- The in-window readmission count equals the number of distinct MRNs
occurring in more than one admission record. -/
theorem readmissions_card (ps : List Patient) :
    readmissions ps =
      ((ps.map (fun p => p.mrn)).toFinset.filter
        (fun m => 1 < (ps.filter (fun p => p.mrn = m)).length)).card := by
  have hnodup := countBy_fst_nodup (fun p : Patient => p.mrn) ps
  have hval : ∀ e ∈ countBy (fun p : Patient => p.mrn) ps,
      e.2 = (ps.filter (fun p => p.mrn = e.1)).length := by
    intro e he
    rw [← lookupD_of_mem _ hnodup e he, countBy_lookupD]
  have hsub : ((countBy (fun p : Patient => p.mrn) ps).filter
      (fun e => 1 < e.2)).Sublist (countBy (fun p : Patient => p.mrn) ps) :=
    List.filter_sublist _
  have hnodup2 : (((countBy (fun p : Patient => p.mrn) ps).filter
      (fun e => 1 < e.2)).map Prod.fst).Nodup :=
    List.Nodup.sublist (hsub.map Prod.fst) hnodup
  have hlen : readmissions ps =
      (((countBy (fun p : Patient => p.mrn) ps).filter
        (fun e => 1 < e.2)).map Prod.fst).length := by
    simp [readmissions, patientAdmissions]
  rw [hlen, ← List.toFinset_card_of_nodup hnodup2]
  congr 1
  ext m
  simp only [List.mem_toFinset, List.mem_map, List.mem_filter,
    Finset.mem_filter, decide_eq_true_eq]
  constructor
  · rintro ⟨e, ⟨heE, hgt⟩, rfl⟩
    have hv := hval e heE
    refine ⟨List.mem_map.mp
      ((countBy_mem_fst _ ps e.1).mp (List.mem_map.mpr ⟨e, heE, rfl⟩)),
      ?_⟩
    omega
  · rintro ⟨hmem, hgt⟩
    have hm : m ∈ (countBy (fun p : Patient => p.mrn) ps).map Prod.fst :=
      (countBy_mem_fst _ ps m).mpr (List.mem_map.mpr hmem)
    obtain ⟨e, heE, rfl⟩ := List.mem_map.mp hm
    exact ⟨e, ⟨heE, by rw [hval e heE]; exact hgt⟩, rfl⟩

/-- C4: `readmissionRate` equals the number of distinct MRN values
occurring in more than one admission record divided by
`max(|admissions|, 1)`; in particular, with 10 admissions of which one
MRN appears twice and the other 8 MRNs are unique, the rate is `0.1`. -/
theorem readmissionRate_spec (ps : List Patient) :
    readmissionRate ps =
      (((ps.map (fun p => p.mrn)).toFinset.filter
          (fun m => 1 < (ps.filter (fun p => p.mrn = m)).length)).card : ℚ) /
        ((max ps.length 1 : Nat) : ℚ)
    ∧ (ps.length = 10 →
        ((ps.map (fun p => p.mrn)).toFinset.filter
          (fun m => 1 < (ps.filter (fun p => p.mrn = m)).length)).card = 1 →
        readmissionRate ps = 1 / 10) := by
  constructor
  · rw [readmissionRate, readmissions_card, jsOrOne_eq_max]
  · intro h10 h1
    rw [readmissionRate, readmissions_card, h1, h10]
    norm_num [jsOrOne]

/-- C4 witness: ten concrete admissions, one MRN appearing twice, give
rate 1/10. -/
theorem readmissionRate_spec_witness :
    readmissionRate
      [⟨"1", "m1", "Stable", "flu", 0⟩, ⟨"2", "m1", "Stable", "flu", 0⟩,
       ⟨"3", "m2", "Stable", "flu", 0⟩, ⟨"4", "m3", "Stable", "flu", 0⟩,
       ⟨"5", "m4", "Stable", "flu", 0⟩, ⟨"6", "m5", "Stable", "flu", 0⟩,
       ⟨"7", "m6", "Stable", "flu", 0⟩, ⟨"8", "m7", "Stable", "flu", 0⟩,
       ⟨"9", "m8", "Stable", "flu", 0⟩, ⟨"10", "m9", "Stable", "flu", 0⟩] =
      1 / 10 :=
  (readmissionRate_spec
      [⟨"1", "m1", "Stable", "flu", 0⟩, ⟨"2", "m1", "Stable", "flu", 0⟩,
       ⟨"3", "m2", "Stable", "flu", 0⟩, ⟨"4", "m3", "Stable", "flu", 0⟩,
       ⟨"5", "m4", "Stable", "flu", 0⟩, ⟨"6", "m5", "Stable", "flu", 0⟩,
       ⟨"7", "m6", "Stable", "flu", 0⟩, ⟨"8", "m7", "Stable", "flu", 0⟩,
       ⟨"9", "m8", "Stable", "flu", 0⟩,
       ⟨"10", "m9", "Stable", "flu", 0⟩]).2 (by decide) (by decide)

/-- C6: `commonDiagnoses` is the grouping of admissions by exact diagnosis
string, sorted descending by count, cut to the first five: its length is
`min 5 (number of distinct diagnosis strings)` and its counts are in
non-increasing order. -/
theorem sortedDiagnoses_spec (ps : List Patient) :
    (sortedDiagnoses ps).length =
      min 5 ((ps.map (fun p => p.diagnosis)).toFinset.card)
    ∧ ((sortedDiagnoses ps).map NameCount.count).Sorted
        (fun a b => b ≤ a) := by
  constructor
  · simp [sortedDiagnoses, List.length_take, List.length_insertionSort,
      diagnosesCount, countBy_length]
  · have hs := List.sorted_insertionSort countDescRel (diagnosesCount ps)
    have hs2 : List.Sorted countDescRel
        ((List.insertionSort countDescRel (diagnosesCount ps)).take 5) :=
      List.Pairwise.sublist (List.take_sublist _ _) hs
    have h3 : (sortedDiagnoses ps).map NameCount.count =
        ((List.insertionSort countDescRel (diagnosesCount ps)).take 5).map
          (fun e => e.2) := by
      simp [sortedDiagnoses, List.map_map]
      rfl
    rw [h3]
    exact List.Pairwise.map _ (fun a b h => h) hs2
